import Mathlib

/-!
Shallow embedding of the coffee-fund ledger engine
(backend/app/services/balance.py, backend/app/api/money_moves.py,
backend/app/api/consumptions.py, backend/app/api/users.py,
backend/app/api/products.py, backend/app/services/audit.py).

Database rows become Lean structures, the database a `DBState` of row
lists; ids are `Nat` stand-ins for the UUID columns and amounts are `Int`
(Python ints carry sign, and the schemas place no bound on them).
Each HTTP handler becomes a function `DBState → ... → DBState × Outcome α`:
the returned state is the committed database after the call, and the
`Outcome` mirrors the handler's result (a value, an `HTTPException`, or a
request that died after its first commit).  Because every handler commits
the mutation with `db.commit()` and only then calls
`AuditService.log_action` — which runs its own `db.add` / `db.commit` —
the audit write is a second transaction; the `auditOk : Bool` parameter
says whether that second transaction succeeds, and when it does not the
run ends in `Outcome.crash` with the first commit already durable.
PIN verification (`PinService`) is external auth transport and is passed
in as a `pinOk : Bool`.
-/

namespace CoffeeFund

/-- `UserRole` from app/core/enums.py. -/
inductive UserRole
  | user
  | treasurer
  | admin
deriving DecidableEq, Repr

/-- `MoneyMoveType` from app/core/enums.py. -/
inductive MoneyMoveType
  | deposit
  | payout
deriving DecidableEq, Repr

/-- `MoneyMoveStatus` from app/core/enums.py. -/
inductive MoneyMoveStatus
  | pending
  | confirmed
  | rejected
deriving DecidableEq, Repr

/-- `AuditAction` from app/core/enums.py. -/
inductive AuditAction
  | create
  | update
  | delete
  | confirm
  | reject
deriving DecidableEq, Repr

/-- `users` row (app/models/users.py plus the `is_deleted` flag the API
and balance service read). -/
structure User where
  id : Nat
  role : UserRole
  is_active : Bool
  is_deleted : Bool
deriving DecidableEq, Repr

/-- `products` row (app/models/products.py; icon/created_at plumbing
omitted). -/
structure Product where
  id : Nat
  name : String
  price_cents : Int
  is_active : Bool
deriving DecidableEq, Repr

/-- `money_moves` row (app/models/money_moves.py). -/
structure MoneyMove where
  id : Nat
  type : MoneyMoveType
  user_id : Nat
  amount_cents : Int
  note : Option String
  created_by : Nat
  confirmed_at : Option Nat
  confirmed_by : Option Nat
  status : MoneyMoveStatus
deriving DecidableEq, Repr

/-- `consumptions` row (app/models/consumptions.py); `at_time` renders the
`at` column (`at` is reserved in Lean). -/
structure Consumption where
  id : Nat
  user_id : Nat
  product_id : Nat
  qty : Int
  unit_price_cents : Int
  amount_cents : Int
  at_time : Nat
  created_by : Nat
deriving DecidableEq, Repr

/-- `audit` row (app/models/audit.py); the opaque `meta_json` payload is
not modelled. -/
structure Audit where
  actor_id : Nat
  action : AuditAction
  entity : String
  entity_id : Nat
deriving DecidableEq, Repr

/-- The committed database: one list per table. -/
structure DBState where
  users : List User
  products : List Product
  moves : List MoneyMove
  consumptions : List Consumption
  audits : List Audit
deriving DecidableEq, Repr

/-- The distinct `HTTPException` raise sites of the embedded handlers.
In the spec's error taxonomy (§7): `userNotFound`/`creatorNotFound`/
`moveNotFound`/`confirmerNotFound`/`rejectorNotFound`/`actorNotFound` are
`NotFound`; `notPending` is `InvalidState`; `selfConfirmation` and
`lastAdmin` are `InvariantViolation`; `onlyTreasurers`,
`notAuthorizedForUser`, `actorInactive`, `invalidPin`, `actorNotAdmin`
are `Unauthorized`; `relatedRecords` is the 409 confirmation response. -/
inductive ApiError
  | userNotFound
  | creatorNotFound
  | onlyTreasurers
  | moveNotFound
  | notPending
  | confirmerNotFound
  | selfConfirmation
  | rejectorNotFound
  | actorNotFound
  | actorInactive
  | invalidPin
  | notAuthorizedForUser
  | productNotFound
  | actorNotAdmin
  | lastAdmin
  | relatedRecords
deriving DecidableEq, Repr

/-- Result of one handler call: success payload, typed error with no
commit, or a run that committed its mutation and then died because the
separate audit-log transaction failed. -/
inductive Outcome (α : Type)
  | ok (a : α)
  | err (e : ApiError)
  | crash
deriving DecidableEq, Repr

/-- `db.query(User).filter(User.id == uid).first()`. -/
def findUser (s : DBState) (uid : Nat) : Option User :=
  s.users.find? (fun u => u.id == uid)

/-- `db.query(MoneyMove).filter(MoneyMove.id == mid).first()`. -/
def findMove (s : DBState) (mid : Nat) : Option MoneyMove :=
  s.moves.find? (fun m => m.id == mid)

/-- `db.query(Product).filter(Product.id == pid, Product.is_active == True).first()`. -/
def findActiveProduct (s : DBState) (pid : Nat) : Option Product :=
  s.products.find? (fun p => p.id == pid && p.is_active)

/-- The SQL `case` expression in `BalanceService.get_user_balance`:
deposits count positively, payouts negatively. -/
def moveSigned (m : MoneyMove) : Int :=
  match m.type with
  | .deposit => m.amount_cents
  | .payout => -m.amount_cents

/-- `BalanceService.get_user_balance` (app/services/balance.py):
sum of all the user's consumption amounts, subtracted from the signed sum
of the user's confirmed money moves. -/
def get_user_balance (s : DBState) (uid : Nat) : Int :=
  let consumption_total :=
    ((s.consumptions.filter (fun c => c.user_id == uid)).map
      (fun c => c.amount_cents)).sum
  let money_move_total :=
    ((s.moves.filter
        (fun m => m.user_id == uid && m.status == MoneyMoveStatus.confirmed)).map
      moveSigned).sum
  money_move_total - consumption_total

/-- `UserBalance` response schema (app/schemas/users.py). -/
structure UserBalance where
  user : User
  balance_cents : Int
deriving DecidableEq, Repr

/-- `BalanceService.get_all_user_balances`: balance of every active,
non-deleted user. -/
def get_all_user_balances (s : DBState) : List UserBalance :=
  (s.users.filter (fun u => u.is_active && !u.is_deleted)).map
    (fun u => { user := u, balance_cents := get_user_balance s u.id })

/-- `BalanceService.get_users_below_threshold`: strict `<` filter. -/
def get_users_below_threshold (s : DBState) (threshold_cents : Int) :
    List UserBalance :=
  (get_all_user_balances s).filter
    (fun b => decide (b.balance_cents < threshold_cents))

/-- `BalanceService.get_users_above_threshold`: `>=` filter. -/
def get_users_above_threshold (s : DBState) (threshold_cents : Int) :
    List UserBalance :=
  (get_all_user_balances s).filter
    (fun b => decide (threshold_cents ≤ b.balance_cents))

/-- `MoneyMoveCreate` request schema (app/schemas/money_moves.py): a bare
`int` amount — the schema declares no positivity bound. -/
structure MoneyMoveCreate where
  type : MoneyMoveType
  user_id : Nat
  amount_cents : Int
  note : Option String
deriving DecidableEq, Repr

/-- The pending row `create_money_move` inserts. -/
def newPendingMove (req : MoneyMoveCreate) (creator_id newId : Nat) :
    MoneyMove :=
  { id := newId
    type := req.type
    user_id := req.user_id
    amount_cents := req.amount_cents
    note := req.note
    created_by := creator_id
    confirmed_at := none
    confirmed_by := none
    status := .pending }

/-- The audit row of `AuditService.log_money_move_created`. -/
def moneyMoveCreatedAudit (creator_id newId : Nat) : Audit :=
  { actor_id := creator_id, action := .create, entity := "money_move",
    entity_id := newId }

/-- `POST /money-moves/` (app/api/money_moves.py `create_money_move`):
check the beneficiary exists, check the creator exists and has role
`treasurer`, insert the pending move and commit, then write the audit row
in its own transaction (`auditOk` says whether that second commit
succeeds). -/
def create_money_move (s : DBState) (req : MoneyMoveCreate)
    (creator_id newId : Nat) (auditOk : Bool) :
    DBState × Outcome MoneyMove :=
  match findUser s req.user_id with
  | none => (s, .err .userNotFound)
  | some _ =>
    match findUser s creator_id with
    | none => (s, .err .creatorNotFound)
    | some creator =>
      if creator.role ≠ UserRole.treasurer then (s, .err .onlyTreasurers)
      else
        let m := newPendingMove req creator_id newId
        let s1 := { s with moves := s.moves ++ [m] }
        if auditOk then
          ({ s1 with
              audits := s1.audits ++ [moneyMoveCreatedAudit creator_id newId] },
            .ok m)
        else (s1, .crash)

/-- The ORM `UPDATE` of the row fetched by primary key: replace the first
row carrying `mid` (ids are a primary key, so at most one row carries
it). -/
def setMove (moves : List MoneyMove) (mid : Nat) (m2 : MoneyMove) :
    List MoneyMove :=
  match moves with
  | [] => []
  | m :: rest =>
    if m.id == mid then m2 :: rest else m :: setMove rest mid m2

/-- The row a successful confirmation writes back. -/
def confirmedVersion (m : MoneyMove) (confirmer_id now : Nat) : MoneyMove :=
  { m with
    status := .confirmed
    confirmed_at := some now
    confirmed_by := some confirmer_id }

/-- The row a successful rejection writes back: rejection reuses the
`confirmed_at` / `confirmed_by` columns for who resolved it and when. -/
def rejectedVersion (m : MoneyMove) (rejector_id now : Nat) : MoneyMove :=
  { m with
    status := .rejected
    confirmed_at := some now
    confirmed_by := some rejector_id }

/-- The audit row of `AuditService.log_money_move_confirmed` for status
"confirmed". -/
def moneyMoveConfirmedAudit (actor_id mid : Nat) : Audit :=
  { actor_id := actor_id, action := .confirm, entity := "money_move",
    entity_id := mid }

/-- The audit row of `AuditService.log_money_move_confirmed` for status
"rejected". -/
def moneyMoveRejectedAudit (actor_id mid : Nat) : Audit :=
  { actor_id := actor_id, action := .reject, entity := "money_move",
    entity_id := mid }

/-- `PATCH /money-moves/{id}/confirm` (app/api/money_moves.py
`confirm_money_move`): move must exist and be pending, confirmer must
exist, self-confirmation is refused; then the move is stamped
confirmed/now/confirmer and committed, and the audit row follows in its
own transaction. -/
def confirm_money_move (s : DBState) (mid confirmer_id now : Nat)
    (auditOk : Bool) : DBState × Outcome MoneyMove :=
  match findMove s mid with
  | none => (s, .err .moveNotFound)
  | some m =>
    if m.status ≠ MoneyMoveStatus.pending then (s, .err .notPending)
    else
      match findUser s confirmer_id with
      | none => (s, .err .confirmerNotFound)
      | some _ =>
        if m.created_by == confirmer_id then (s, .err .selfConfirmation)
        else
          let m2 := confirmedVersion m confirmer_id now
          let s1 := { s with moves := setMove s.moves mid m2 }
          if auditOk then
            ({ s1 with
                audits := s1.audits ++ [moneyMoveConfirmedAudit confirmer_id mid] },
              .ok m2)
          else (s1, .crash)

/-- `PATCH /money-moves/{id}/reject` (app/api/money_moves.py
`reject_money_move`): move must exist and be pending, rejector must
exist — no role check and no self-rejection check; the move is stamped
rejected/now/rejector and committed, and the audit row follows in its
own transaction. -/
def reject_money_move (s : DBState) (mid rejector_id now : Nat)
    (auditOk : Bool) : DBState × Outcome MoneyMove :=
  match findMove s mid with
  | none => (s, .err .moveNotFound)
  | some m =>
    if m.status ≠ MoneyMoveStatus.pending then (s, .err .notPending)
    else
      match findUser s rejector_id with
      | none => (s, .err .rejectorNotFound)
      | some _ =>
        let m2 := rejectedVersion m rejector_id now
        let s1 := { s with moves := setMove s.moves mid m2 }
        if auditOk then
          ({ s1 with
              audits := s1.audits ++ [moneyMoveRejectedAudit rejector_id mid] },
            .ok m2)
        else (s1, .crash)

/-- `ConsumptionCreate` request schema (app/schemas/consumptions.py). -/
structure ConsumptionCreate where
  user_id : Nat
  product_id : Nat
  qty : Int
deriving DecidableEq, Repr

/-- The row `create_consumption` inserts: the product's price is read
once and stored both as the `unit_price_cents` snapshot and inside the
precomputed `amount_cents = unit_price_cents * qty`. -/
def newConsumption (req : ConsumptionCreate) (price : Int)
    (actor_id newId now : Nat) : Consumption :=
  { id := newId
    user_id := req.user_id
    product_id := req.product_id
    qty := req.qty
    unit_price_cents := price
    amount_cents := price * req.qty
    at_time := now
    created_by := actor_id }

/-- The audit row of `AuditService.log_consumption_created`. -/
def consumptionCreatedAudit (actor_id newId : Nat) : Audit :=
  { actor_id := actor_id, action := .create, entity := "consumption",
    entity_id := newId }

/-- `POST /consumptions/` (app/api/consumptions.py `create_consumption`,
including its `user_or_treasurer_actor` dependency): the actor must
exist, be active and give a valid PIN (`pinOk` stands for the external
`PinService.verify_user_pin`); the target user must exist; a
non-treasurer actor may only book for themself; the product must exist
and be active.  The consumption is committed, the audit row follows in
its own transaction. -/
def create_consumption (s : DBState) (req : ConsumptionCreate)
    (actor_id : Nat) (pinOk : Bool) (newId now : Nat) (auditOk : Bool) :
    DBState × Outcome Consumption :=
  match findUser s actor_id with
  | none => (s, .err .actorNotFound)
  | some actor =>
    if !actor.is_active then (s, .err .actorInactive)
    else if !pinOk then (s, .err .invalidPin)
    else
      match findUser s req.user_id with
      | none => (s, .err .userNotFound)
      | some user =>
        if actor.role ≠ UserRole.treasurer ∧ actor.id ≠ user.id then
          (s, .err .notAuthorizedForUser)
        else
          match findActiveProduct s req.product_id with
          | none => (s, .err .productNotFound)
          | some product =>
            let c := newConsumption req product.price_cents actor.id newId now
            let s1 := { s with consumptions := s.consumptions ++ [c] }
            if auditOk then
              ({ s1 with
                  audits := s1.audits ++ [consumptionCreatedAudit actor.id newId] },
                .ok c)
            else (s1, .crash)

/-- `ProductUpdate` request schema (app/schemas/products.py); the icon
field is presentation plumbing and is omitted. -/
structure ProductUpdate where
  name : Option String
  price_cents : Option Int
  is_active : Option Bool
deriving DecidableEq, Repr

/-- The `setattr` loop of `update_product`: overwrite exactly the fields
the request carries. -/
def applyProductUpdate (p : Product) (u : ProductUpdate) : Product :=
  { p with
    name := u.name.getD p.name
    price_cents := u.price_cents.getD p.price_cents
    is_active := u.is_active.getD p.is_active }

/-- The ORM `UPDATE` of the product row fetched by primary key. -/
def setProduct (products : List Product) (pid : Nat) (p2 : Product) :
    List Product :=
  match products with
  | [] => []
  | p :: rest =>
    if p.id == pid then p2 :: rest else p :: setProduct rest pid p2

/-- `PUT /products/{id}` (app/api/products.py `update_product`): fetch the
product, overwrite the supplied fields, commit; the audit row is only
written when an `actor_id` query parameter was supplied, again in its own
transaction. -/
def update_product (s : DBState) (pid : Nat) (upd : ProductUpdate)
    (actor_id : Option Nat) (auditOk : Bool) : DBState × Outcome Product :=
  match s.products.find? (fun p => p.id == pid) with
  | none => (s, .err .productNotFound)
  | some p =>
    let p2 := applyProductUpdate p upd
    let s1 := { s with products := setProduct s.products pid p2 }
    match actor_id with
    | none => (s1, .ok p2)
    | some aid =>
      if auditOk then
        ({ s1 with
            audits := s1.audits ++
              [{ actor_id := aid, action := .update, entity := "product",
                 entity_id := pid }] },
          .ok p2)
      else (s1, .crash)

/-- The ORM update marking a user soft-deleted. -/
def setUser (users : List User) (uid : Nat) (u2 : User) : List User :=
  match users with
  | [] => []
  | u :: rest =>
    if u.id == uid then u2 :: rest else u :: setUser rest uid u2

/-- `DELETE /users/{id}` (app/api/users.py `delete_user`, including its
`admin_actor` dependency): the actor must exist, hold role `admin` and
give a valid PIN; the target must exist; deleting an admin is refused
when no other active, non-deleted admin remains; a user with any
dependent consumption / money-move / audit record is refused without
`force` and soft-deleted with it; otherwise the row is removed.  Each
successful branch commits the mutation, then writes its audit row in a
separate transaction. -/
def delete_user (s : DBState) (uid : Nat) (force : Bool)
    (actor_id : Nat) (pinOk : Bool) (auditOk : Bool) :
    DBState × Outcome Unit :=
  match findUser s actor_id with
  | none => (s, .err .actorNotFound)
  | some actor =>
    if actor.role ≠ UserRole.admin then (s, .err .actorNotAdmin)
    else if !pinOk then (s, .err .invalidPin)
    else
      match findUser s uid with
      | none => (s, .err .userNotFound)
      | some user =>
        let remaining_admins :=
          (s.users.filter
            (fun v => v.role == UserRole.admin && !(v.id == uid) &&
              v.is_active && !v.is_deleted)).length
        if user.role = UserRole.admin ∧ remaining_admins = 0 then
          (s, .err .lastAdmin)
        else
          let has_related :=
            s.consumptions.any (fun c => c.user_id == uid) ||
            s.consumptions.any (fun c => c.created_by == uid) ||
            s.moves.any (fun m => m.user_id == uid) ||
            s.moves.any (fun m => m.created_by == uid) ||
            s.moves.any (fun m => m.confirmed_by == some uid) ||
            s.audits.any (fun a => a.actor_id == uid)
          if has_related && !force then (s, .err .relatedRecords)
          else if has_related && force then
            let s1 :=
              { s with users := setUser s.users uid { user with is_deleted := true } }
            if auditOk then
              ({ s1 with
                  audits := s1.audits ++
                    [{ actor_id := actor.id, action := .delete,
                       entity := "user", entity_id := uid }] },
                .ok ())
            else (s1, .crash)
          else
            let s1 := { s with users := s.users.eraseP (fun u => u.id == uid) }
            if auditOk then
              ({ s1 with
                  audits := s1.audits ++
                    [{ actor_id := actor.id, action := .delete,
                       entity := "user", entity_id := uid }] },
                .ok ())
            else (s1, .crash)

/-- `true` exactly on a success outcome. -/
def Outcome.isOk {α : Type} : Outcome α → Bool
  | .ok _ => true
  | _ => false

/-- `true` exactly on a typed-error outcome. -/
def Outcome.isErr {α : Type} : Outcome α → Bool
  | .err _ => true
  | _ => false

/-! ## Theorems -/

/-- Splitting the signed sum of the SQL `case` expression into a deposit
sum minus a payout sum. -/
theorem signedSum_split (l : List MoneyMove) (q : MoneyMove → Bool) :
    ((l.filter q).map moveSigned).sum =
      ((l.filter (fun m => q m && m.type == MoneyMoveType.deposit)).map
        (fun m => m.amount_cents)).sum -
      ((l.filter (fun m => q m && m.type == MoneyMoveType.payout)).map
        (fun m => m.amount_cents)).sum := by
  induction l with
  | nil => simp
  | cons m rest ih =>
    by_cases hq : q m
    · cases htype : m.type <;>
        simp [List.filter_cons, hq, htype, moveSigned, ih] <;> ring
    · simp [List.filter_cons, hq, ih]

/-- C1: `BalanceService.get_user_balance` equals the sum of the user's
confirmed deposit amounts, minus the sum of their confirmed payout
amounts, minus the sum of all their consumption amounts; a user with no
records has balance 0; and prepending a money move whose status is not
`confirmed` (pending or rejected) never changes the balance. -/
theorem C1_get_user_balance_spec (s : DBState) (uid : Nat) :
    (get_user_balance s uid =
      ((s.moves.filter (fun m =>
          (m.user_id == uid && m.status == MoneyMoveStatus.confirmed) &&
            m.type == MoneyMoveType.deposit)).map (fun m => m.amount_cents)).sum -
      ((s.moves.filter (fun m =>
          (m.user_id == uid && m.status == MoneyMoveStatus.confirmed) &&
            m.type == MoneyMoveType.payout)).map (fun m => m.amount_cents)).sum -
      ((s.consumptions.filter (fun c => c.user_id == uid)).map
        (fun c => c.amount_cents)).sum) ∧
    (s.moves = [] → s.consumptions = [] → get_user_balance s uid = 0) ∧
    (∀ m' : MoneyMove, m'.status ≠ MoneyMoveStatus.confirmed →
      get_user_balance { s with moves := m' :: s.moves } uid =
        get_user_balance s uid) := by
  refine ⟨?_, ?_, ?_⟩
  · unfold get_user_balance
    rw [signedSum_split]
  · intro hm hc
    simp [get_user_balance, hm, hc]
  · intro m' hm'
    have : (m'.user_id == uid && m'.status == MoneyMoveStatus.confirmed) = false := by
      cases hstat : m'.status <;> simp_all
    simp [get_user_balance, List.filter_cons, this]

/-! ### Concrete fixtures used by witnesses and counterexamples -/

/-- A treasurer. -/
def tUser : User := { id := 1, role := .treasurer, is_active := true, is_deleted := false }

/-- A regular active user. -/
def nUser : User := { id := 2, role := .user, is_active := true, is_deleted := false }

/-- An admin. -/
def aUser : User := { id := 3, role := .admin, is_active := true, is_deleted := false }

/-- A second treasurer. -/
def t2User : User := { id := 4, role := .treasurer, is_active := true, is_deleted := false }

/-- The user directory of the fixtures. -/
def baseUsers : List User := [tUser, nUser, aUser, t2User]

/-- A database with users but no ledger rows. -/
def emptyState : DBState :=
  { users := baseUsers, products := [], moves := [], consumptions := [], audits := [] }

/-- A confirmed 2000-cent deposit for user 2. -/
def depositConfirmed : MoneyMove :=
  { id := 10, type := .deposit, user_id := 2, amount_cents := 2000, note := none,
    created_by := 1, confirmed_at := some 5, confirmed_by := some 4,
    status := .confirmed }

/-- A confirmed 500-cent payout for user 2. -/
def payoutConfirmed : MoneyMove :=
  { id := 11, type := .payout, user_id := 2, amount_cents := 500, note := none,
    created_by := 1, confirmed_at := some 6, confirmed_by := some 4,
    status := .confirmed }

/-- A pending 999-cent deposit for user 2. -/
def depositPending : MoneyMove :=
  { id := 12, type := .deposit, user_id := 2, amount_cents := 999, note := none,
    created_by := 1, confirmed_at := none, confirmed_by := none,
    status := .pending }

/-- A 3 × 200-cent consumption of user 2. -/
def someConsumption : Consumption :=
  { id := 20, user_id := 2, product_id := 30, qty := 3, unit_price_cents := 200,
    amount_cents := 600, at_time := 7, created_by := 2 }

/-- A database whose ledger gives user 2 the balance 2000 − 500 − 600 = 900. -/
def ledgerState : DBState :=
  { users := baseUsers, products := [],
    moves := [depositConfirmed, payoutConfirmed],
    consumptions := [someConsumption], audits := [] }

/-- A pending 1000-cent deposit for user 2, created by user 1. -/
def pendingMoveW : MoneyMove :=
  { id := 40, type := .deposit, user_id := 2, amount_cents := 1000, note := none,
    created_by := 1, confirmed_at := none, confirmed_by := none,
    status := .pending }

/-- A database holding only the pending move of `pendingMoveW`. -/
def pendingState : DBState :=
  { users := baseUsers, products := [], moves := [pendingMoveW],
    consumptions := [], audits := [] }

/-- A well-formed 1000-cent deposit request for user 2. -/
def reqW : MoneyMoveCreate :=
  { type := .deposit, user_id := 2, amount_cents := 1000, note := none }

/-- Witness for C1 at concrete inputs: the no-record balance is 0, and
prepending the pending `depositPending` does not change user 2's
balance. -/
theorem C1_witness :
    get_user_balance emptyState 2 = 0 ∧
    get_user_balance { ledgerState with moves := depositPending :: ledgerState.moves } 2 =
      get_user_balance ledgerState 2 :=
  ⟨(C1_get_user_balance_spec emptyState 2).2.1 rfl rfl,
   (C1_get_user_balance_spec ledgerState 2).2.2 depositPending (by decide)⟩

/-- C2: confirming a pending money move whose creator is the would-be
confirmer fails with the self-confirmation error (`InvariantViolation`
in the spec's taxonomy) and leaves the database — hence the move and its
`pending` status — untouched; and every successful confirmation stamps
`confirmed_by` with a confirmer different from `created_by`. -/
theorem C2_no_self_confirmation :
    (∀ (s : DBState) (mid cid now : Nat) (auditOk : Bool) (m : MoneyMove),
        findMove s mid = some m →
        m.status = MoneyMoveStatus.pending →
        (findUser s cid).isSome = true →
        cid = m.created_by →
        confirm_money_move s mid cid now auditOk = (s, .err .selfConfirmation)) ∧
    (∀ (s : DBState) (mid cid now : Nat) (auditOk : Bool) (s2 : DBState) (m2 : MoneyMove),
        confirm_money_move s mid cid now auditOk = (s2, .ok m2) →
        m2.confirmed_by = some cid ∧ m2.created_by ≠ cid) := by
  constructor
  · intro s mid cid now auditOk m hm hpend hex heq
    obtain ⟨c, hc⟩ := Option.isSome_iff_exists.mp hex
    subst heq
    simp [confirm_money_move, hm, hpend, hc]
  · intro s mid cid now auditOk s2 m2 hres
    simp only [confirm_money_move] at hres
    split at hres
    · simp at hres
    · split at hres
      · simp at hres
      · split at hres
        · simp at hres
        · split at hres
          · simp at hres
          next hneq =>
            split at hres
            · simp only [Prod.mk.injEq, Outcome.ok.injEq] at hres
              obtain ⟨-, hm2⟩ := hres
              subst hm2
              refine ⟨rfl, ?_⟩
              simpa [confirmedVersion] using hneq
            · simp at hres

/-- Witness for C2: user 1 created `pendingMoveW` and is refused when
trying to confirm it. -/
theorem C2_witness :
    confirm_money_move pendingState 40 1 9 true =
      (pendingState, .err .selfConfirmation) :=
  C2_no_self_confirmation.1 pendingState 40 1 9 true pendingMoveW rfl rfl rfl rfl

/-- C3 counterexample: `create_money_move` commits the new move with
`db.commit()` and only afterwards runs `AuditService.log_action`, which
commits in a transaction of its own.  In the execution where that second
transaction fails (`auditOk = false`), the database ends with the
mutation committed and no audit row — the single-transaction claim is
false on this code. -/
theorem C3_counterexample :
    create_money_move emptyState reqW 1 50 false =
      ({ emptyState with moves := [newPendingMove reqW 1 50] }, .crash) ∧
    ({ emptyState with moves := [newPendingMove reqW 1 50] } : DBState).audits = [] := by
  decide

/-- C3 amended: in each of Create, Confirm and Reject the mutation and
its audit entry live in two separate transactions.  When the operation's
checks pass, the mutation is committed first; if the audit write then
fails the mutation stays committed with the audit table unchanged, and
only when the audit write succeeds does the audit row appear. -/
theorem C3_mutations_commit_before_audit :
    (∀ (s : DBState) (req : MoneyMoveCreate) (cid newId : Nat) (u c : User),
        findUser s req.user_id = some u →
        findUser s cid = some c →
        c.role = UserRole.treasurer →
        create_money_move s req cid newId false =
          ({ s with moves := s.moves ++ [newPendingMove req cid newId] }, .crash) ∧
        create_money_move s req cid newId true =
          ({ s with moves := s.moves ++ [newPendingMove req cid newId],
                    audits := s.audits ++ [moneyMoveCreatedAudit cid newId] },
            .ok (newPendingMove req cid newId))) ∧
    (∀ (s : DBState) (mid cid now : Nat) (m : MoneyMove) (c : User),
        findMove s mid = some m →
        m.status = MoneyMoveStatus.pending →
        findUser s cid = some c →
        m.created_by ≠ cid →
        confirm_money_move s mid cid now false =
          ({ s with moves := setMove s.moves mid (confirmedVersion m cid now) },
            .crash) ∧
        confirm_money_move s mid cid now true =
          ({ s with moves := setMove s.moves mid (confirmedVersion m cid now),
                    audits := s.audits ++ [moneyMoveConfirmedAudit cid mid] },
            .ok (confirmedVersion m cid now))) ∧
    (∀ (s : DBState) (mid rid now : Nat) (m : MoneyMove) (r : User),
        findMove s mid = some m →
        m.status = MoneyMoveStatus.pending →
        findUser s rid = some r →
        reject_money_move s mid rid now false =
          ({ s with moves := setMove s.moves mid (rejectedVersion m rid now) },
            .crash) ∧
        reject_money_move s mid rid now true =
          ({ s with moves := setMove s.moves mid (rejectedVersion m rid now),
                    audits := s.audits ++ [moneyMoveRejectedAudit rid mid] },
            .ok (rejectedVersion m rid now))) := by
  refine ⟨?_, ?_, ?_⟩
  · intro s req cid newId u c hu hc hrole
    constructor <;> simp [create_money_move, hu, hc, hrole]
  · intro s mid cid now m c hm hpend hc hne
    have hne' : (m.created_by == cid) = false := by simpa using hne
    constructor <;> simp [confirm_money_move, hm, hpend, hc, hne']
  · intro s mid rid now m r hm hpend hr
    constructor <;> simp [reject_money_move, hm, hpend, hr]

/-- Witness for the amended C3 at concrete databases: a create, a
confirm and a reject whose audit transaction fails each leave the
mutation committed with the audit table unchanged. -/
theorem C3_witness :
    create_money_move emptyState reqW 1 50 false =
      ({ emptyState with moves := emptyState.moves ++ [newPendingMove reqW 1 50] },
        .crash) ∧
    confirm_money_move pendingState 40 4 9 false =
      ({ pendingState with
          moves := setMove pendingState.moves 40 (confirmedVersion pendingMoveW 4 9) },
        .crash) ∧
    reject_money_move pendingState 40 4 9 false =
      ({ pendingState with
          moves := setMove pendingState.moves 40 (rejectedVersion pendingMoveW 4 9) },
        .crash) :=
  ⟨(C3_mutations_commit_before_audit.1 emptyState reqW 1 50 nUser tUser
      rfl rfl rfl).1,
   (C3_mutations_commit_before_audit.2.1 pendingState 40 4 9 pendingMoveW t2User
      rfl rfl rfl (by decide)).1,
   (C3_mutations_commit_before_audit.2.2 pendingState 40 4 9 pendingMoveW t2User
      rfl rfl rfl).1⟩

/-- C4: once a money move is `confirmed` or `rejected`, any further
confirm or reject call — whoever the actor is — fails with the
"Money move is not pending" error (`InvalidState` in the spec's
taxonomy) and returns the database unchanged, so none of the move's
fields change. -/
theorem C4_terminal_moves_immutable (s : DBState) (mid aid now : Nat)
    (auditOk : Bool) (m : MoneyMove)
    (hm : findMove s mid = some m)
    (hterm : m.status = MoneyMoveStatus.confirmed ∨
      m.status = MoneyMoveStatus.rejected) :
    confirm_money_move s mid aid now auditOk = (s, .err .notPending) ∧
    reject_money_move s mid aid now auditOk = (s, .err .notPending) := by
  have hne : m.status ≠ MoneyMoveStatus.pending := by
    rcases hterm with h | h <;> simp [h]
  constructor <;> simp [confirm_money_move, reject_money_move, hm, hne]

/-- Witness for C4: the confirmed deposit of `ledgerState` can be neither
confirmed again nor rejected. -/
theorem C4_witness :
    confirm_money_move ledgerState 10 1 9 true = (ledgerState, .err .notPending) ∧
    reject_money_move ledgerState 10 1 9 true = (ledgerState, .err .notPending) :=
  C4_terminal_moves_immutable ledgerState 10 1 9 true depositConfirmed rfl (Or.inl rfl)

/-- C5 counterexample: `create_money_move` rejects every creator whose
role is not exactly `treasurer`.  At a concrete database the admin
(user 3) is refused, and so is the active beneficiary (user 2) creating
a move for themself — both of whom the claim says must succeed. -/
theorem C5_counterexample :
    aUser.role = UserRole.admin ∧ aUser ∈ emptyState.users ∧
    create_money_move emptyState reqW 3 51 true = (emptyState, .err .onlyTreasurers) ∧
    nUser.is_active = true ∧ reqW.user_id = nUser.id ∧
    create_money_move emptyState reqW 2 52 true = (emptyState, .err .onlyTreasurers) := by
  decide

/-- C5 amended: `create_money_move` succeeds exactly when the beneficiary
exists and the creator exists with role `treasurer`; creators with role
`admin` or `user` — the beneficiary acting for themself included — are
rejected with the 403 `Unauthorized` error, and no active-status check
is made on either side. -/
theorem C5_create_authorization (s : DBState) (req : MoneyMoveCreate)
    (cid newId : Nat) :
    (create_money_move s req cid newId true).2.isOk =
      ((findUser s req.user_id).isSome &&
        ((findUser s cid).map
          (fun c => decide (c.role = UserRole.treasurer))).getD false) := by
  simp only [create_money_move]
  cases hu : findUser s req.user_id with
  | none => simp [Outcome.isOk]
  | some u =>
    cases hc : findUser s cid with
    | none => simp [Outcome.isOk]
    | some c =>
      by_cases hrole : c.role = UserRole.treasurer
      · simp [Outcome.isOk, hrole]
      · simp [Outcome.isOk, hrole]

/-- C6 counterexample: no positivity check exists anywhere on the create
path (the schema declares a bare `int` and the handler never looks at
the amount), so a −500-cent deposit request from a treasurer is accepted
and committed as a pending move carrying a negative amount — the claim
says it must fail with `InvariantViolation`. -/
theorem C6_counterexample :
    create_money_move emptyState
        { type := .deposit, user_id := 2, amount_cents := -500, note := none }
        1 60 true =
      ({ emptyState with
          moves := [newPendingMove
            { type := .deposit, user_id := 2, amount_cents := -500, note := none } 1 60],
          audits := [moneyMoveCreatedAudit 1 60] },
        .ok (newPendingMove
          { type := .deposit, user_id := 2, amount_cents := -500, note := none } 1 60)) ∧
    (newPendingMove
      { type := .deposit, user_id := 2, amount_cents := -500, note := none }
      1 60).amount_cents = -500 ∧
    (newPendingMove
      { type := .deposit, user_id := 2, amount_cents := -500, note := none }
      1 60).status = MoneyMoveStatus.pending := by
  decide

/-- C6 amended: `create_money_move` performs no validation of
`amount_cents`: a request with `amount_cents ≤ 0` from an existing
treasurer for an existing beneficiary succeeds, and the created pending
move stores that non-positive amount unchanged. -/
theorem C6_no_amount_validation (s : DBState) (req : MoneyMoveCreate)
    (cid newId : Nat) (u c : User)
    (hu : findUser s req.user_id = some u)
    (hc : findUser s cid = some c)
    (hrole : c.role = UserRole.treasurer)
    (_hamt : req.amount_cents ≤ 0) :
    create_money_move s req cid newId true =
      ({ s with moves := s.moves ++ [newPendingMove req cid newId],
                audits := s.audits ++ [moneyMoveCreatedAudit cid newId] },
        .ok (newPendingMove req cid newId)) ∧
    (newPendingMove req cid newId).amount_cents = req.amount_cents ∧
    (newPendingMove req cid newId).status = MoneyMoveStatus.pending := by
  refine ⟨?_, rfl, rfl⟩
  simp [create_money_move, hu, hc, hrole]

/-- A −500-cent deposit request. -/
def negReq : MoneyMoveCreate :=
  { type := .deposit, user_id := 2, amount_cents := -500, note := none }

/-- Witness for the amended C6 at a concrete database. -/
theorem C6_witness :
    create_money_move emptyState negReq 1 61 true =
      ({ emptyState with
          moves := emptyState.moves ++ [newPendingMove negReq 1 61],
          audits := emptyState.audits ++ [moneyMoveCreatedAudit 1 61] },
        .ok (newPendingMove negReq 1 61)) ∧
    (newPendingMove negReq 1 61).amount_cents = negReq.amount_cents ∧
    (newPendingMove negReq 1 61).status = MoneyMoveStatus.pending :=
  C6_no_amount_validation emptyState negReq 1 61 nUser tUser rfl rfl rfl (by decide)

/-- C7: a successfully created consumption stores the product's current
price as its `unit_price_cents` snapshot and
`amount_cents = unit_price_cents * qty` computed at creation time; and
`update_product` (price changes included) never touches the
`consumptions` table, so existing rows keep both values. -/
theorem C7_consumption_price_snapshot :
    (∀ (s : DBState) (req : ConsumptionCreate) (aid newId now : Nat)
        (actor u : User) (p : Product),
        findUser s aid = some actor → actor.is_active = true →
        findUser s req.user_id = some u →
        (actor.role = UserRole.treasurer ∨ actor.id = u.id) →
        findActiveProduct s req.product_id = some p →
        create_consumption s req aid true newId now true =
          ({ s with
              consumptions := s.consumptions ++
                [newConsumption req p.price_cents actor.id newId now],
              audits := s.audits ++ [consumptionCreatedAudit actor.id newId] },
            .ok (newConsumption req p.price_cents actor.id newId now)) ∧
        (newConsumption req p.price_cents actor.id newId now).amount_cents =
          p.price_cents * req.qty ∧
        (newConsumption req p.price_cents actor.id newId now).unit_price_cents =
          p.price_cents) ∧
    (∀ (s : DBState) (pid : Nat) (upd : ProductUpdate) (aid : Option Nat)
        (auditOk : Bool),
        (update_product s pid upd aid auditOk).1.consumptions = s.consumptions) := by
  constructor
  · intro s req aid newId now actor u p hactor hactive hu hauth hp
    have hcond : ¬(actor.role ≠ UserRole.treasurer ∧ actor.id ≠ u.id) := by
      rcases hauth with h | h <;> simp [h]
    refine ⟨?_, rfl, rfl⟩
    simp [create_consumption, hactor, hactive, hu, hp, hcond]
  · intro s pid upd aid auditOk
    simp only [update_product]
    cases h : s.products.find? (fun p => p.id == pid) with
    | none => rfl
    | some p =>
      cases aid with
      | none => rfl
      | some a => cases auditOk <;> rfl

/-- The coffee product of the fixtures: 200 cents, active. -/
def coffeeProduct : Product :=
  { id := 30, name := "Coffee", price_cents := 200, is_active := true }

/-- A database with the coffee product on sale. -/
def shopState : DBState :=
  { users := baseUsers, products := [coffeeProduct], moves := [],
    consumptions := [], audits := [] }

/-- A request booking 3 coffees onto user 2. -/
def consReq : ConsumptionCreate := { user_id := 2, product_id := 30, qty := 3 }

/-- Witness for C7: the treasurer books 3 × 200 cents onto user 2. -/
theorem C7_witness :
    create_consumption shopState consReq 1 true 70 8 true =
      ({ shopState with
          consumptions := shopState.consumptions ++
            [newConsumption consReq coffeeProduct.price_cents tUser.id 70 8],
          audits := shopState.audits ++ [consumptionCreatedAudit tUser.id 70] },
        .ok (newConsumption consReq coffeeProduct.price_cents tUser.id 70 8)) ∧
    (newConsumption consReq coffeeProduct.price_cents tUser.id 70 8).amount_cents =
      coffeeProduct.price_cents * consReq.qty ∧
    (newConsumption consReq coffeeProduct.price_cents tUser.id 70 8).unit_price_cents =
      coffeeProduct.price_cents :=
  C7_consumption_price_snapshot.1 shopState consReq 1 70 8 tUser nUser coffeeProduct
    rfl rfl rfl (Or.inl rfl) rfl

/-- C8: deleting a user who is the sole user holding the `admin` role is
refused with the last-admin error (`InvariantViolation` in the spec's
taxonomy) and leaves the database unchanged — the user is neither hard-
nor soft-deleted, whatever the `force` flag says, so at least one admin
always remains. -/
theorem C8_last_admin_not_deletable (s : DBState) (uid aid : Nat)
    (force pinOk auditOk : Bool) (actor u : User)
    (hpin : pinOk = true)
    (hactor : findUser s aid = some actor)
    (hadminActor : actor.role = UserRole.admin)
    (hu : findUser s uid = some u)
    (hrole : u.role = UserRole.admin)
    (hsole : ∀ v ∈ s.users, v.role = UserRole.admin → v.id = uid) :
    delete_user s uid force aid pinOk auditOk = (s, .err .lastAdmin) := by
  have hfilter : s.users.filter
      (fun v => v.role == UserRole.admin && !(v.id == uid) &&
        v.is_active && !v.is_deleted) = [] := by
    rw [List.filter_eq_nil_iff]
    intro v hv
    by_cases hr : v.role = UserRole.admin
    · have hid := hsole v hv hr
      simp [hid, hr]
    · simp [hr]
  simp [delete_user, hactor, hadminActor, hpin, hu, hrole, hfilter]

/-- A database whose only user is the admin. -/
def soloAdminState : DBState :=
  { users := [aUser], products := [], moves := [], consumptions := [],
    audits := [] }

/-- Witness for C8: the sole admin cannot delete themself, even forced. -/
theorem C8_witness :
    delete_user soloAdminState 3 true 3 true true =
      (soloAdminState, .err .lastAdmin) :=
  C8_last_admin_not_deletable soloAdminState 3 3 true true true aUser aUser
    rfl rfl rfl rfl rfl (by decide)

/-- C9: `reject_money_move` runs no self-rejection check and no role
check: for a pending move, any existing user — the move's creator
included — succeeds, the move going to `rejected` with
`confirmed_at`/`confirmed_by` stamped; and with the audit transaction up,
the call errors exactly when the move is missing, the move is not
pending, or the rejector is missing. -/
theorem C9_reject_allows_any_existing_user :
    (∀ (s : DBState) (mid rid now : Nat) (m : MoneyMove) (r : User),
        findMove s mid = some m →
        m.status = MoneyMoveStatus.pending →
        findUser s rid = some r →
        reject_money_move s mid rid now true =
          ({ s with moves := setMove s.moves mid (rejectedVersion m rid now),
                    audits := s.audits ++ [moneyMoveRejectedAudit rid mid] },
            .ok (rejectedVersion m rid now)) ∧
        (rejectedVersion m rid now).status = MoneyMoveStatus.rejected ∧
        (rejectedVersion m rid now).confirmed_by = some rid ∧
        (rejectedVersion m rid now).confirmed_at = some now) ∧
    (∀ (s : DBState) (mid rid now : Nat),
        (reject_money_move s mid rid now true).2.isErr = true ↔
          findMove s mid = none ∨
          (∃ m, findMove s mid = some m ∧ m.status ≠ MoneyMoveStatus.pending) ∨
          findUser s rid = none) := by
  constructor
  · intro s mid rid now m r hm hpend hr
    refine ⟨?_, rfl, rfl, rfl⟩
    simp [reject_money_move, hm, hpend, hr]
  · intro s mid rid now
    cases hm : findMove s mid with
    | none => simp [reject_money_move, hm, Outcome.isErr]
    | some m =>
      by_cases hpend : m.status = MoneyMoveStatus.pending
      · cases hr : findUser s rid with
        | none => simp [reject_money_move, hm, hpend, hr, Outcome.isErr]
        | some r => simp [reject_money_move, hm, hpend, hr, Outcome.isErr]
      · simp [reject_money_move, hm, hpend, Outcome.isErr]

/-- Witness for C9: user 1 created `pendingMoveW` and nevertheless
rejects it themself, successfully. -/
theorem C9_witness :
    (reject_money_move pendingState 40 1 9 true =
      ({ pendingState with
          moves := setMove pendingState.moves 40 (rejectedVersion pendingMoveW 1 9),
          audits := pendingState.audits ++ [moneyMoveRejectedAudit 1 40] },
        .ok (rejectedVersion pendingMoveW 1 9)) ∧
      (rejectedVersion pendingMoveW 1 9).status = MoneyMoveStatus.rejected ∧
      (rejectedVersion pendingMoveW 1 9).confirmed_by = some 1 ∧
      (rejectedVersion pendingMoveW 1 9).confirmed_at = some 9) ∧
    pendingMoveW.created_by = 1 :=
  ⟨C9_reject_allows_any_existing_user.1 pendingState 40 1 9 pendingMoveW tUser
      rfl rfl rfl,
    rfl⟩

/-- Membership in `get_all_user_balances`: exactly the active,
non-deleted users, each paired with their computed balance. -/
theorem mem_get_all_user_balances (s : DBState) (ub : UserBalance) :
    ub ∈ get_all_user_balances s ↔
      (ub.user ∈ s.users ∧ ub.user.is_active = true ∧
        ub.user.is_deleted = false ∧
        ub.balance_cents = get_user_balance s ub.user.id) := by
  constructor
  · intro h
    simp only [get_all_user_balances, List.mem_map, List.mem_filter] at h
    obtain ⟨u, ⟨hu, hp⟩, heq⟩ := h
    subst heq
    simp only [Bool.and_eq_true, Bool.not_eq_true'] at hp
    exact ⟨hu, hp.1, hp.2, rfl⟩
  · intro ⟨hu, ha, hd, hb⟩
    simp only [get_all_user_balances, List.mem_map, List.mem_filter]
    refine ⟨ub.user, ⟨hu, by simp [ha, hd]⟩, ?_⟩
    cases ub with
    | mk user bal => simpa using hb.symm

/-- C10: the below-threshold list holds exactly the active, non-deleted
users with balance strictly under the threshold, the above-threshold
list exactly those with balance at or over it; hence every active,
non-deleted user lands in exactly one of the two, and a balance equal to
the threshold lands in the above list. -/
theorem C10_threshold_partition (s : DBState) (t : Int) :
    (∀ ub : UserBalance, ub ∈ get_users_below_threshold s t ↔
        (ub.user ∈ s.users ∧ ub.user.is_active = true ∧
          ub.user.is_deleted = false ∧
          ub.balance_cents = get_user_balance s ub.user.id ∧
          ub.balance_cents < t)) ∧
    (∀ ub : UserBalance, ub ∈ get_users_above_threshold s t ↔
        (ub.user ∈ s.users ∧ ub.user.is_active = true ∧
          ub.user.is_deleted = false ∧
          ub.balance_cents = get_user_balance s ub.user.id ∧
          t ≤ ub.balance_cents)) ∧
    (∀ u : User, u ∈ s.users → u.is_active = true → u.is_deleted = false →
        (({ user := u, balance_cents := get_user_balance s u.id } : UserBalance) ∈
            get_users_below_threshold s t ↔
          ¬(({ user := u, balance_cents := get_user_balance s u.id } : UserBalance) ∈
            get_users_above_threshold s t))) := by
  refine ⟨?_, ?_, ?_⟩
  · intro ub
    rw [get_users_below_threshold, List.mem_filter, mem_get_all_user_balances]
    simp [and_assoc]
  · intro ub
    rw [get_users_above_threshold, List.mem_filter, mem_get_all_user_balances]
    simp [and_assoc]
  · intro u hu ha hd
    have hin : ({ user := u, balance_cents := get_user_balance s u.id } : UserBalance) ∈
        get_all_user_balances s :=
      (mem_get_all_user_balances s _).mpr ⟨hu, ha, hd, rfl⟩
    rw [get_users_below_threshold, get_users_above_threshold,
      List.mem_filter, List.mem_filter]
    simp only [hin, true_and, decide_eq_true_eq]
    omega

/-- Witness for C10: in `ledgerState` user 2 holds balance 900, which is
below the 1000-cent threshold, so their entry sits in exactly the below
list. -/
theorem C10_witness :
    ({ user := nUser, balance_cents := get_user_balance ledgerState nUser.id } :
        UserBalance) ∈ get_users_below_threshold ledgerState 1000 ↔
      ¬(({ user := nUser, balance_cents := get_user_balance ledgerState nUser.id } :
        UserBalance) ∈ get_users_above_threshold ledgerState 1000) :=
  (C10_threshold_partition ledgerState 1000).2.2 nUser (by decide) rfl rfl

end CoffeeFund
